import Mathlib

/-!
Shallow embedding of the hardware-inventory core of `src/hwview.py`.

Python numbers are modelled as integers and rationals, with the one lossy
step of the source embedded explicitly: `_fmt_bytes` begins with
`v = float(n)`, which rounds magnitudes of `2 ^ 53` and above to the nearest
double; `toDouble` models that conversion (53 significant bits, ties to
even).  Every later step is exact: dividing a double by 1024 only shifts its
exponent (no underflow at these magnitudes), and `.1f` / `.0f` formatting
rounds the exact value of the double to the requested number of decimals
with ties going to even — values of the form `m / 2^k` never tie at a
decimal, so `roundHE` agrees with CPython on every value the program
formats.

Optional data coming back from `cpuinfo` / `platform` / WMI attributes is
modelled as `Option String`; Python `x or y` treats both `None` and the
empty string as falsy, which `truthyD` / `strOr` reproduce.
-/

/-- Python `str.lower()` restricted to ASCII, which is all `platform.system()`
ever returns ("Windows", "Linux", "Darwin", "Java"). -/
def pyLower (s : String) : String := ⟨s.data.map Char.toLower⟩

/-- Python `a or d` where `a` is an optional string (`None` and `""` are falsy). -/
def truthyD : Option String → String → String
  | none, d => d
  | some s, d => if s = "" then d else s

/-- Python `s or d` where `s` is a plain string (only `""` is falsy). -/
def strOr (s d : String) : String := if s = "" then d else s

/-- Round a rational to the nearest integer, ties to even (CPython float formatting). -/
def roundHE (x : ℚ) : ℤ :=
  let f := ⌊x⌋
  let r := x - (f : ℚ)
  if r < 1/2 then f else if 1/2 < r then f + 1 else if f % 2 = 0 then f else f + 1

/-- Python `int(v)`: truncation toward zero. -/
def pyInt (v : ℚ) : ℤ := if 0 ≤ v then ⌊v⌋ else ⌈v⌉

/-- Python `f"{v:.1f}"` for the non-negative values produced inside `_fmt_bytes`. -/
def fmt1 (v : ℚ) : String :=
  toString (roundHE (10 * v) / 10) ++ "." ++ toString (roundHE (10 * v) % 10)

/-- Python `f"{p:.0f}"` for a non-negative percentage. -/
def fmt0 (p : ℚ) : String := toString (roundHE p)

/-- CPython `float(n)` for an integer `n`: round to the nearest binary64
value — 53 significant bits, ties to even.  Magnitudes below `2 ^ 53` are
exact; above, the low `a.log2 - 52` bits are rounded away.  (CPython raises
OverflowError once the magnitude exceeds the binary64 range near `2 ^ 1024`;
every byte count the program feeds to `_fmt_bytes` is far below that, and
the claims are settled inside the no-overflow regime.) -/
def toDouble (n : ℤ) : ℚ :=
  let a := n.natAbs
  if a < 2 ^ 53 then (n : ℚ)
  else
    let e := a.log2 - 52
    let s := roundHE ((a : ℚ) / 2 ^ e) * 2 ^ e
    if n < 0 then -(s : ℚ) else (s : ℚ)

/-- The loop body of `_fmt_bytes` (hwview.py lines 32-39): walk the unit list,
returning at the first unit where `v < 1024`; `B` is rendered as a bare
integer, every other unit with one decimal; falling off the list yields `PB`. -/
def fmtBytesGo : List String → ℚ → String
  | [], v => fmt1 v ++ " PB"
  | u :: us, v =>
    if v < 1024 then
      if u = "B" then toString (pyInt v) ++ " " ++ u else fmt1 v ++ " " ++ u
    else fmtBytesGo us (v / 1024)

/-- `_fmt_bytes(n)` (hwview.py lines 32-39): `v = float(n)` is `toDouble n`,
then the unit loop runs on the (exactly tracked) double value. -/
def _fmt_bytes (n : ℤ) : String :=
  fmtBytesGo ["B", "KB", "MB", "GB", "TB"] (toDouble n)

/-- The data `get_cpu_details` reads from `cpuinfo.get_cpu_info()`, `platform`
and `psutil` (hwview.py lines 42-48).  `info.get(k)` yields `none` for a
missing key; `platform.processor()` / `platform.machine()` return a plain
(possibly empty) string; `psutil.cpu_count` returns `none` when unknown. -/
structure CpuEnv where
  brand_raw : Option String
  brand : Option String
  arch : Option String
  hz_advertised_friendly : Option String
  hz_advertised : Option String
  processor : String
  machine : String
  cores_physical : Option ℕ
  cores_logical : Option ℕ
deriving DecidableEq

/-- `get_cpu_details()` (hwview.py lines 42-55); the Python dict preserves
insertion order, so the report is an ordered association list. -/
def get_cpu_details (e : CpuEnv) : List (String × String) :=
  let brand := truthyD e.brand_raw (truthyD e.brand (strOr e.processor "Unknown"))
  let arch := truthyD e.arch (strOr e.machine "Unknown")
  let hz := truthyD e.hz_advertised_friendly (truthyD e.hz_advertised "Unknown")
  [("Name", brand), ("Arch", arch), ("Advertised", hz),
   ("Cores (physical)", toString (e.cores_physical.getD 0)),
   ("Cores (logical)", toString (e.cores_logical.getD 0))]

/-- The snapshot `psutil.virtual_memory()` returns (fields used by hwview.py). -/
structure VirtualMemory where
  total : ℕ
  available : ℕ
  used : ℕ
  percent : ℚ
deriving DecidableEq

/-- `get_ram_details()` (hwview.py lines 58-65). -/
def get_ram_details (vm : VirtualMemory) : List (String × String) :=
  [("Total", _fmt_bytes vm.total), ("Available", _fmt_bytes vm.available),
   ("Used", _fmt_bytes vm.used), ("Percent", fmt0 vm.percent ++ "%")]

/-- One `Win32_VideoController` as read through `getattr` (hwview.py lines 83-87):
every attribute may be absent (`none`). -/
structure RawAdapter where
  name : Option String
  adapterRAM : Option ℤ
  driverVersion : Option String
  status : Option String
deriving DecidableEq

/-- An exception escaping the WMI enumeration: its class name and message,
as interpolated into `f"(GPU lookup failed: {e.__class__.__name__}: {e})"`. -/
structure PyError where
  cls : String
  msg : String
deriving DecidableEq

/-- The record built for one adapter (hwview.py lines 83-88). -/
structure GpuAdapterReport where
  Name : String
  VRAM : String
  Driver : String
  Status : String
deriving DecidableEq

/-- hwview.py line 88: per-adapter record construction.  `AdapterRAM` is
checked with `is not None` (not truthiness), the other three with `or`. -/
def mkAdapterReport (a : RawAdapter) : GpuAdapterReport :=
  { Name := truthyD a.name "Unknown"
    VRAM := match a.adapterRAM with
      | some r => _fmt_bytes r
      | none => "—"
    Driver := truthyD a.driverVersion "—"
    Status := truthyD a.status "—" }

/-- The placeholder returned on a non-Windows platform (hwview.py line 75). -/
def unsupportedPlaceholder : GpuAdapterReport :=
  ⟨"(GPU details only available on Windows)", "—", "—", "—"⟩

/-- The placeholder returned when enumeration finds no adapter (hwview.py line 89). -/
def noGpuPlaceholder : GpuAdapterReport :=
  ⟨"(No GPU detected via WMI)", "—", "—", "—"⟩

/-- The placeholder returned when enumeration raises (hwview.py line 91): its
Name embeds the exception class (the error category) and message. -/
def errorPlaceholder (e : PyError) : GpuAdapterReport :=
  ⟨"(GPU lookup failed: " ++ e.cls ++ ": " ++ e.msg ++ ")", "—", "—", "—"⟩

/-- `get_gpu_details()` (hwview.py lines 68-91).  `p` is `platform.system()`;
`enum` is the outcome of the `try` block around the WMI enumeration: either
the adapter list or the exception it raised.  `return gpus or [...]`
substitutes the placeholder exactly when the mapped list is empty. -/
def get_gpu_details (p : String) (enum : Except PyError (List RawAdapter)) :
    List GpuAdapterReport :=
  if pyLower p ≠ "windows" then [unsupportedPlaceholder]
  else
    match enum with
    | .ok adapters =>
      let gpus := adapters.map mkAdapterReport
      if gpus = [] then [noGpuPlaceholder] else gpus
    | .error e => [errorPlaceholder e]

/-- The GPU-relevant state of `App`: the `_gpu_loaded` flag (hwview.py
lines 155, 194), the number of `self.after(50, self._load_gpu)` callbacks
scheduled but not yet run (line 202), and a counter of `get_gpu_details()`
invocations (lines 181 and 218). -/
structure AppGpuState where
  gpuLoaded : Bool
  pendingLoads : ℕ
  probeCalls : ℕ
deriving DecidableEq

/-- State right after `App.__init__` (hwview.py lines 155-157): `_gpu_loaded`
is `False`, nothing is scheduled and the probe has never run
(`refresh_all` deliberately skips the GPU, line 177). -/
def appInit : AppGpuState := ⟨false, 0, 0⟩

/-- Consumer requests relevant to the lazy GPU gate. -/
inductive UiEvent where
  /-- The notebook switched to the tab titled "GPU" (`_on_tab_changed`, lines 196-204). -/
  | gpuTabSelected
  /-- The notebook switched to any other tab (`_on_tab_changed` takes no action). -/
  | otherTabSelected
  /-- A scheduled `self.after(50, self._load_gpu)` callback fires (`_load_gpu`, lines 180-194). -/
  | timerFireLoadGpu
  /-- The Refresh button (`refresh_all`, lines 174-178): re-reads CPU and RAM only. -/
  | refreshAll
  /-- The Copy Summary button (`copy_summary`, lines 215-240): calls `get_gpu_details()` directly. -/
  | copySummary
deriving DecidableEq

/-- One event step of the app.  `gpuTabSelected` schedules a `_load_gpu`
whenever `_gpu_loaded` is still false (the flag is only set at the END of
`_load_gpu`, line 194); a firing timer runs `_load_gpu`, which invokes the
probe and then sets the flag; `copy_summary` invokes the probe
unconditionally (line 218) and never consults or sets `_gpu_loaded`. -/
def stepUi (s : AppGpuState) : UiEvent → AppGpuState
  | .gpuTabSelected =>
    if s.gpuLoaded then s else { s with pendingLoads := s.pendingLoads + 1 }
  | .otherTabSelected => s
  | .timerFireLoadGpu =>
    if s.pendingLoads = 0 then s
    else { gpuLoaded := true, pendingLoads := s.pendingLoads - 1,
           probeCalls := s.probeCalls + 1 }
  | .refreshAll => s
  | .copySummary => { s with probeCalls := s.probeCalls + 1 }

/-- Run a sequence of consumer requests from a given state. -/
def runUi (s : AppGpuState) (es : List UiEvent) : AppGpuState :=
  es.foldl stepUi s

/-- One live sample, as read inside `_tick_live` (hwview.py lines 208-209). -/
structure LiveSample where
  cpu_percent : ℚ
  ram_percent : ℚ
  ram_total : ℕ
deriving DecidableEq

/-- Left-pad with spaces to width 5, as `f"{x:5.1f}"` does around `fmt1`. -/
def pad5 (s : String) : String :=
  (List.replicate (5 - s.length) ' ').asString ++ s

/-- The label text `_tick_live` writes (hwview.py line 210). -/
def renderLive (sm : LiveSample) : String :=
  "CPU: " ++ pad5 (fmt1 sm.cpu_percent) ++ "%   RAM: " ++
    pad5 (fmt1 sm.ram_percent) ++ "%   (Total: " ++ _fmt_bytes sm.ram_total ++ ")"

/-- The state `_tick_live` touches: the Live label text and whether the next
tick has been scheduled through `self.after(750, self._tick_live)`. -/
structure LiveState where
  liveText : String
  nextTickScheduled : Bool
deriving DecidableEq

/-- `_tick_live` (hwview.py lines 206-213).  The sampling and label update sit
inside `try: ... except Exception: pass`; `outcome` is what that block did:
either a fresh sample or the exception it raised.  The rescheduling call is
OUTSIDE the `try`, so it runs on both paths; the handler does nothing, so on
the error path the label keeps its previous text and no error escapes. -/
def tick_live (outcome : Except PyError LiveSample) (st : LiveState) : LiveState :=
  match outcome with
  | .ok sm => { liveText := renderLive sm, nextTickScheduled := true }
  | .error _ => { st with nextTickScheduled := true }

/-- One `"- {k}: {v}"` line of `copy_summary` (hwview.py lines 227, 231). -/
def fieldLine (kv : String × String) : String :=
  "- " ++ kv.1 ++ ": " ++ kv.2

/-- The `"- GPU {i}: {name} ({vram})"` lines of `copy_summary` (hwview.py
lines 234-235), numbering from `start=1`; the `g.get` defaults never fire
because every built record carries all four keys. -/
def gpuSummaryLines : ℕ → List GpuAdapterReport → List String
  | _, [] => []
  | i, g :: gs =>
    ("- GPU " ++ toString i ++ ": " ++ g.Name ++ " (" ++ g.VRAM ++ ")") ::
      gpuSummaryLines (i + 1) gs

/-- The `parts` list `copy_summary` accumulates (hwview.py lines 220-235),
parameterised by the `platform` strings and the three reports it collects. -/
def copySummaryParts (osSystem osRelease osVersion : String)
    (cpu ram : List (String × String)) (gpus : List GpuAdapterReport) :
    List String :=
  ["Simple Hardware Viewer",
   "OS: " ++ osSystem ++ " " ++ osRelease ++ " (" ++ osVersion ++ ")",
   "", "CPU:"]
  ++ cpu.map fieldLine
  ++ ["", "RAM:"]
  ++ ram.map fieldLine
  ++ ["", "GPU:"]
  ++ gpuSummaryLines 1 gpus

/-- The text `copy_summary` places on the clipboard (hwview.py line 237). -/
def copy_summary_text (osSystem osRelease osVersion : String)
    (cpu ram : List (String × String)) (gpus : List GpuAdapterReport) : String :=
  String.intercalate "\n"
    (copySummaryParts osSystem osRelease osVersion cpu ram gpus)

/-! Reference definitions written from the specification text, to be compared
with the embedded code. -/

/-- Reference for §4.1: the index of the first unit at which repeatedly
dividing `n` by 1024 brings the value below 1024, with PB (index 5) as a
non-scaling ceiling. -/
def specUnitIndex (n : ℕ) : ℕ :=
  if n < 1024 then 0
  else if n < 1024 ^ 2 then 1
  else if n < 1024 ^ 3 then 2
  else if n < 1024 ^ 4 then 3
  else if n < 1024 ^ 5 then 4
  else 5

/-- The unit ladder of §4.1. -/
def specUnits : List String := ["B", "KB", "MB", "GB", "TB", "PB"]

/-- Reference formatter for §4.1: scale `n` by `1024 ^ specUnitIndex n`;
render `B` as a bare integer and every other unit with one decimal place. -/
def specFmtBytes (n : ℕ) : String :=
  let k := specUnitIndex n
  if k = 0 then toString n ++ " " ++ "B"
  else fmt1 ((n : ℚ) / 1024 ^ k) ++ " " ++ specUnits.getD k "PB"

/-- Reference for the §4.2 merge policy: the first available entry of a
priority list, where an entry is available when it is present and non-empty;
falls back to the given default. -/
def firstAvailable : List (Option String) → String → String
  | [], d => d
  | o :: rest, d =>
    match o with
    | none => firstAvailable rest d
    | some s => if s = "" then firstAvailable rest d else s

/-! Helper lemmas. -/

theorem truthyD_firstAvailable (o : Option String) (L : List (Option String))
    (d : String) : truthyD o (firstAvailable L d) = firstAvailable (o :: L) d := by
  cases o <;> simp [truthyD, firstAvailable]

theorem strOr_firstAvailable (s d : String) :
    strOr s d = firstAvailable [some s] d := by
  simp [strOr, firstAvailable]

theorem truthyD_pair (o o' : Option String) (d : String) :
    truthyD o (truthyD o' d) = firstAvailable [o, o'] d := by
  cases o <;> cases o' <;> simp [truthyD, firstAvailable]

/-- The CPU report, re-expressed through the specification's per-field
priority lists. -/
theorem cpu_details_firstAvailable (e : CpuEnv) :
    get_cpu_details e =
      [("Name", firstAvailable [e.brand_raw, e.brand, some e.processor] "Unknown"),
       ("Arch", firstAvailable [e.arch, some e.machine] "Unknown"),
       ("Advertised", firstAvailable [e.hz_advertised_friendly, e.hz_advertised] "Unknown"),
       ("Cores (physical)", toString (e.cores_physical.getD 0)),
       ("Cores (logical)", toString (e.cores_logical.getD 0))] := by
  unfold get_cpu_details
  rw [strOr_firstAvailable, truthyD_firstAvailable, truthyD_firstAvailable,
    strOr_firstAvailable, truthyD_firstAvailable, truthyD_pair]

/-! Claim theorems. -/

/-- C1: `get_gpu_details` is total (the embedding returns a plain list, the
`except` arm being the error branch of the source), always yields a non-empty
list, turns an unsupported platform into exactly one placeholder record, and
turns any enumeration error into exactly one placeholder record whose Name
embeds the error category. -/
theorem gpu_collect_never_fails_nonempty (p : String)
    (enum : Except PyError (List RawAdapter)) :
    get_gpu_details p enum ≠ [] ∧
    (pyLower p ≠ "windows" → get_gpu_details p enum = [unsupportedPlaceholder]) ∧
    (∀ e : PyError, enum = Except.error e → pyLower p = "windows" →
      get_gpu_details p enum = [errorPlaceholder e]) := by
  refine ⟨?_, ?_, ?_⟩
  · unfold get_gpu_details
    split
    · simp
    · cases enum with
      | ok adapters =>
        dsimp only
        split
        · simp
        · assumption
      | error e => simp
  · intro hw
    unfold get_gpu_details
    rw [if_pos hw]
  · intro e he hw
    subst he
    unfold get_gpu_details
    rw [if_neg (by simp [hw])]

/-- C1 witness: concrete instantiations discharging each hypothesis — a
non-Windows platform with an enumeration error, and a Windows platform whose
enumeration raised `OSError`. -/
theorem gpu_collect_never_fails_nonempty_witness :
    get_gpu_details "linux" (Except.error ⟨"OSError", "boom"⟩) ≠ [] ∧
    get_gpu_details "linux" (Except.error ⟨"OSError", "boom"⟩) = [unsupportedPlaceholder] ∧
    get_gpu_details "Windows" (Except.error ⟨"OSError", "boom"⟩) =
      [errorPlaceholder ⟨"OSError", "boom"⟩] :=
  ⟨(gpu_collect_never_fails_nonempty "linux" (Except.error ⟨"OSError", "boom"⟩)).1,
   (gpu_collect_never_fails_nonempty "linux" (Except.error ⟨"OSError", "boom"⟩)).2.1
     (by decide),
   (gpu_collect_never_fails_nonempty "Windows" (Except.error ⟨"OSError", "boom"⟩)).2.2
     ⟨"OSError", "boom"⟩ rfl (by decide)⟩

/-- C2 counterexample: pressing Copy Summary twice is a sequence of two
consumer requests after which `get_gpu_details` has run twice
(`copy_summary` calls the probe directly, bypassing the `_gpu_loaded` cache),
so the probe does not run at most once per process lifetime. -/
theorem lazy_gate_double_probe_cex :
    ¬ (runUi appInit [UiEvent.copySummary, UiEvent.copySummary]).probeCalls ≤ 1 := by
  decide

/-- C2 amended: the lazy gate only covers tab-change triggers, and only after
a load has completed: from any state with `_gpu_loaded` set and no `_load_gpu`
callback pending, any further sequence of requests that contains no Copy
Summary press leaves the whole GPU state — in particular the probe-invocation
count — unchanged. -/
theorem lazy_gate_no_reprobe_after_loaded (s : AppGpuState) (es : List UiEvent)
    (hL : s.gpuLoaded = true) (hP : s.pendingLoads = 0)
    (hni : UiEvent.copySummary ∉ es) : runUi s es = s := by
  induction es with
  | nil => rfl
  | cons e es ih =>
    rw [List.mem_cons, not_or] at hni
    obtain ⟨hne, hni'⟩ := hni
    have hstep : stepUi s e = s := by
      cases e with
      | gpuTabSelected => simp [stepUi, hL]
      | otherTabSelected => rfl
      | timerFireLoadGpu => simp [stepUi, hP]
      | refreshAll => rfl
      | copySummary => exact absurd rfl hne
    calc runUi s (e :: es) = runUi (stepUi s e) es := rfl
    _ = runUi s es := by rw [hstep]
    _ = s := ih hni'

/-- C2 witness: a loaded, quiescent state with one past probe call, followed by
a GPU-tab trigger, a timer fire and a refresh: the state is unchanged. -/
theorem lazy_gate_no_reprobe_after_loaded_witness :
    (⟨true, 0, 1⟩ : AppGpuState).gpuLoaded = true ∧
    (⟨true, 0, 1⟩ : AppGpuState).pendingLoads = 0 ∧
    UiEvent.copySummary ∉
      [UiEvent.gpuTabSelected, UiEvent.timerFireLoadGpu, UiEvent.refreshAll] ∧
    runUi ⟨true, 0, 1⟩
      [UiEvent.gpuTabSelected, UiEvent.timerFireLoadGpu, UiEvent.refreshAll] =
      ⟨true, 0, 1⟩ :=
  ⟨rfl, rfl, by decide,
   lazy_gate_no_reprobe_after_loaded ⟨true, 0, 1⟩
     [UiEvent.gpuTabSelected, UiEvent.timerFireLoadGpu, UiEvent.refreshAll]
     rfl rfl (by decide)⟩

/-- The environment in which every CPU source is unavailable: `cpuinfo`
returned no usable keys, `platform.processor()` / `platform.machine()` are
empty, and `psutil.cpu_count` answered `None` for both. -/
def emptyCpuEnv : CpuEnv := ⟨none, none, none, none, none, "", "", none, none⟩

/-- C3 counterexample: with the core counts unavailable, the report renders
them as the literal "0", not as "Unknown", so absent data does not uniformly
appear as "Unknown". -/
theorem cpu_unknown_literal_cex :
    List.lookup "Cores (physical)" (get_cpu_details emptyCpuEnv) = some "0" ∧
    List.lookup "Cores (physical)" (get_cpu_details emptyCpuEnv) ≠ some "Unknown" ∧
    List.lookup "Cores (logical)" (get_cpu_details emptyCpuEnv) = some "0" := by
  decide

/-- C3 amended: `get_cpu_details` always returns exactly the five fields Name,
Arch, Advertised, Cores (physical), Cores (logical), in this order, each with
a (total) string value; absent Name/Arch/Advertised data renders as the
literal "Unknown", while absent core counts render as the literal "0". -/
theorem cpu_report_fixed_fields (e : CpuEnv) :
    (get_cpu_details e).map Prod.fst =
      ["Name", "Arch", "Advertised", "Cores (physical)", "Cores (logical)"] ∧
    List.lookup "Name"
      (get_cpu_details { e with brand_raw := none, brand := none, processor := "" }) =
      some "Unknown" ∧
    List.lookup "Arch"
      (get_cpu_details { e with arch := none, machine := "" }) = some "Unknown" ∧
    List.lookup "Advertised"
      (get_cpu_details { e with hz_advertised_friendly := none, hz_advertised := none }) =
      some "Unknown" ∧
    List.lookup "Cores (physical)"
      (get_cpu_details { e with cores_physical := none }) = some "0" ∧
    List.lookup "Cores (logical)"
      (get_cpu_details { e with cores_logical := none }) = some "0" := by
  refine ⟨rfl, ?_, ?_, ?_, ?_, ?_⟩ <;>
    simp [get_cpu_details, List.lookup, truthyD, strOr] <;> rfl

/-- C5: on the synthetic snapshot total = 8 GiB, available = used = 4 GiB,
percent = 50.0, the RAM report is exactly the claimed four fields. -/
theorem ram_report_synthetic_snapshot :
    get_ram_details ⟨8589934592, 4294967296, 4294967296, 50⟩ =
      [("Total", "8.0 GB"), ("Available", "4.0 GB"),
       ("Used", "4.0 GB"), ("Percent", "50%")] := by
  with_unfolding_all rfl

/-- C6: every field of the CPU report follows the stated fallback precedence:
Name is the first available of brand_raw, brand, the OS processor string, else
"Unknown"; Arch the first available of arch, the OS machine type, else
"Unknown"; Advertised the first available of the friendly frequency string,
the raw frequency field, else "Unknown" (a source is available when it is
present and non-empty, matching Python truthiness). -/
theorem cpu_field_fallback_precedence (e : CpuEnv) :
    get_cpu_details e =
      [("Name", firstAvailable [e.brand_raw, e.brand, some e.processor] "Unknown"),
       ("Arch", firstAvailable [e.arch, some e.machine] "Unknown"),
       ("Advertised", firstAvailable [e.hz_advertised_friendly, e.hz_advertised] "Unknown"),
       ("Cores (physical)", toString (e.cores_physical.getD 0)),
       ("Cores (logical)", toString (e.cores_logical.getD 0))] :=
  cpu_details_firstAvailable e

/-- C7 counterexample: on Windows with a successful enumeration that found
zero adapters, the single placeholder's Name is the literal
"(No GPU detected via WMI)", not the claimed literal "(No GPU detected)". -/
theorem gpu_no_adapter_literal_cex :
    get_gpu_details "Windows" (Except.ok []) = [noGpuPlaceholder] ∧
    (get_gpu_details "Windows" (Except.ok [])).map GpuAdapterReport.Name ≠
      ["(No GPU detected)"] := by
  decide

/-- C7 amended: when the platform lowercases to "windows" and enumeration
succeeds with zero adapters, the result is exactly one record with Name
"(No GPU detected via WMI)" and VRAM, Driver, Status all "—". -/
theorem gpu_no_adapter_placeholder (p : String) (h : pyLower p = "windows") :
    get_gpu_details p (Except.ok []) = [noGpuPlaceholder] := by
  unfold get_gpu_details
  rw [if_neg (by simp [h])]
  rfl

/-- C7 witness: the amended statement at the concrete platform "Windows". -/
theorem gpu_no_adapter_placeholder_witness :
    pyLower "Windows" = "windows" ∧
    get_gpu_details "Windows" (Except.ok []) = [noGpuPlaceholder] :=
  ⟨by decide, gpu_no_adapter_placeholder "Windows" (by decide)⟩

/-- C8: the clipboard text is the newline-join of a header, a "CPU:" section,
a "RAM:" section and a "GPU:" section; every field line has the shape
"- Label: value", and the fields appear in report insertion order — the CPU
block lists Name, Arch, Advertised, Cores (physical), Cores (logical) in
exactly that order, the RAM block Total, Available, Used, Percent, and the
GPU block one "- GPU i: Name (VRAM)" line per adapter in sequence order. -/
theorem export_text_field_order (osS osR osV : String) (e : CpuEnv)
    (vm : VirtualMemory) (gpus : List GpuAdapterReport) :
    copy_summary_text osS osR osV (get_cpu_details e) (get_ram_details vm) gpus =
      String.intercalate "\n"
        (["Simple Hardware Viewer",
          "OS: " ++ osS ++ " " ++ osR ++ " (" ++ osV ++ ")",
          "",
          "CPU:",
          "- Name: " ++ firstAvailable [e.brand_raw, e.brand, some e.processor] "Unknown",
          "- Arch: " ++ firstAvailable [e.arch, some e.machine] "Unknown",
          "- Advertised: " ++
            firstAvailable [e.hz_advertised_friendly, e.hz_advertised] "Unknown",
          "- Cores (physical): " ++ toString (e.cores_physical.getD 0),
          "- Cores (logical): " ++ toString (e.cores_logical.getD 0),
          "",
          "RAM:",
          "- Total: " ++ _fmt_bytes vm.total,
          "- Available: " ++ _fmt_bytes vm.available,
          "- Used: " ++ _fmt_bytes vm.used,
          "- Percent: " ++ fmt0 vm.percent ++ "%",
          "",
          "GPU:"] ++ gpuSummaryLines 1 gpus) := by
  rw [copy_summary_text, copySummaryParts, cpu_details_firstAvailable]
  rfl

/-- C9: one tick of the live loop always schedules the next tick, whatever the
sampling outcome was (the `self.after` call sits outside the `try`), and a
failed sample is swallowed: the label text is left as it was and no error is
propagated (the embedding of `_tick_live` is a total function into the state,
the `except Exception: pass` arm being its error branch). -/
theorem live_tick_swallows_errors (outcome : Except PyError LiveSample)
    (st : LiveState) :
    (tick_live outcome st).nextTickScheduled = true ∧
    ∀ e : PyError, (tick_live (Except.error e) st).liveText = st.liveText := by
  constructor
  · cases outcome <;> rfl
  · intro e
    rfl

theorem fmtBytesGo_step (u : String) (us : List String) (v : ℚ)
    (h : ¬ v < 1024) : fmtBytesGo (u :: us) v = fmtBytesGo us (v / 1024) := by
  simp only [fmtBytesGo]
  rw [if_neg h]

theorem fmtBytesGo_stop (u : String) (us : List String) (v : ℚ)
    (h : v < 1024) (hu : ¬ u = "B") :
    fmtBytesGo (u :: us) v = fmt1 v ++ " " ++ u := by
  simp only [fmtBytesGo]
  rw [if_pos h, if_neg hu]

theorem fmtBytesGo_stopB (us : List String) (v : ℚ) (h : v < 1024) :
    fmtBytesGo ("B" :: us) v = toString (pyInt v) ++ " " ++ "B" := by
  simp only [fmtBytesGo]
  rw [if_pos h]
  simp

theorem cast_div_pow_lt (n k : ℕ) :
    ((n : ℚ) / 1024 ^ k < 1024) ↔ n < 1024 ^ (k + 1) := by
  rw [div_lt_iff₀ (by positivity), ← pow_succ']
  exact_mod_cast Iff.rfl

theorem div_pow_step (x : ℚ) (k : ℕ) :
    x / 1024 ^ k / 1024 = x / 1024 ^ (k + 1) := by
  rw [div_div, ← pow_succ]

theorem pyInt_natCast (n : ℕ) : pyInt (n : ℚ) = (n : ℤ) := by
  unfold pyInt
  rw [if_pos (by positivity), Int.floor_natCast]

theorem toDouble_eq_self (n : ℤ) (h : n.natAbs < 2 ^ 53) :
    toDouble n = (n : ℚ) := by
  simp only [toDouble]
  rw [if_pos h]

theorem log2_9513854212820173 : Nat.log2 9513854212820173 = 53 := by
  rw [Nat.log2_eq_log_two]
  exact Nat.log_eq_of_pow_le_of_lt_pow (by norm_num) (by norm_num)

/-- `float(9513854212820173)` rounds down to the even-mantissa neighbour
`9513854212820172` (the input is odd and sits exactly halfway between the
two adjacent doubles, whose spacing is 2 at this magnitude). -/
theorem toDouble_9513854212820173 :
    toDouble 9513854212820173 = 9513854212820172 := by
  have ha : (9513854212820173 : ℤ).natAbs = 9513854212820173 := rfl
  simp only [toDouble, ha, log2_9513854212820173]
  norm_num
  with_unfolding_all rfl

/-- C4 counterexample: at `n = 9513854212820173` the program's initial
`float(n)` conversion rounds down to `…172`, and the rendered value is
"8.4 PB", while the reference definition — which divides the exact integer —
renders "8.5 PB"; the original unrestricted claim is false of the program. -/
theorem fmt_bytes_float_rounding_cex :
    _fmt_bytes 9513854212820173 = "8.4 PB" ∧
    specFmtBytes 9513854212820173 = "8.5 PB" ∧
    _fmt_bytes 9513854212820173 ≠ specFmtBytes 9513854212820173 := by
  have h1 : _fmt_bytes 9513854212820173 = "8.4 PB" := by
    unfold _fmt_bytes
    rw [toDouble_9513854212820173]
    with_unfolding_all rfl
  have h2 : specFmtBytes 9513854212820173 = "8.5 PB" := by
    with_unfolding_all rfl
  refine ⟨h1, h2, ?_⟩
  rw [h1, h2]
  decide

/-- C4 amended: for every non-negative integer below `2 ^ 53` — the range on
which `float(n)` is exact — `_fmt_bytes` agrees with the reference definition
of the specification: scale by the first power of 1024 that brings the value
below 1024 (PB being the non-scaling ceiling), render `B` as a bare integer
and every other unit with exactly one decimal place; and the three spec
examples hold. -/
theorem fmt_bytes_matches_reference (n : ℕ) (hn : n < 2 ^ 53) :
    _fmt_bytes (n : ℤ) = specFmtBytes n ∧
    _fmt_bytes 0 = "0 B" ∧ _fmt_bytes 1536 = "1.5 KB" ∧
    _fmt_bytes 1099511627776 = "1.0 TB" := by
  refine ⟨?_, by with_unfolding_all rfl, by with_unfolding_all rfl,
    by with_unfolding_all rfl⟩
  have hd : toDouble (n : ℤ) = ((n : ℤ) : ℚ) :=
    toDouble_eq_self _ (by simpa using hn)
  have hc : (((n : ℤ) : ℚ)) = (n : ℚ) := by push_cast; ring
  unfold _fmt_bytes
  rw [hd, hc]
  by_cases h0 : n < 1024
  · have hq : (n : ℚ) < 1024 := by exact_mod_cast h0
    rw [fmtBytesGo_stopB _ _ hq, pyInt_natCast]
    simp only [specFmtBytes, specUnitIndex, h0, if_true, if_pos]
    rfl
  · have hq0 : ¬ (n : ℚ) < 1024 := fun hcon => h0 (by exact_mod_cast hcon)
    rw [fmtBytesGo_step _ _ _ hq0,
      show (n : ℚ) / 1024 = (n : ℚ) / 1024 ^ 1 by rw [pow_one]]
    by_cases h1 : n < 1024 ^ 2
    · rw [fmtBytesGo_stop _ _ _ ((cast_div_pow_lt n 1).2 h1) (by decide)]
      simp only [specFmtBytes, specUnitIndex, h0, h1, if_false, if_true,
        if_neg, specUnits]
      rfl
    · rw [fmtBytesGo_step _ _ _ (fun hcon => h1 ((cast_div_pow_lt n 1).1 hcon)),
        div_pow_step]
      by_cases h2 : n < 1024 ^ 3
      · rw [fmtBytesGo_stop _ _ _ ((cast_div_pow_lt n 2).2 h2) (by decide)]
        simp only [specFmtBytes, specUnitIndex, h0, h1, h2, if_false, if_true,
          if_neg, specUnits]
        rfl
      · rw [fmtBytesGo_step _ _ _ (fun hcon => h2 ((cast_div_pow_lt n 2).1 hcon)),
          div_pow_step]
        by_cases h3 : n < 1024 ^ 4
        · rw [fmtBytesGo_stop _ _ _ ((cast_div_pow_lt n 3).2 h3) (by decide)]
          simp only [specFmtBytes, specUnitIndex, h0, h1, h2, h3, if_false,
            if_true, if_neg, specUnits]
          rfl
        · rw [fmtBytesGo_step _ _ _ (fun hcon => h3 ((cast_div_pow_lt n 3).1 hcon)),
            div_pow_step]
          by_cases h4 : n < 1024 ^ 5
          · rw [fmtBytesGo_stop _ _ _ ((cast_div_pow_lt n 4).2 h4) (by decide)]
            simp only [specFmtBytes, specUnitIndex, h0, h1, h2, h3, h4,
              if_false, if_true, if_neg, specUnits]
            rfl
          · rw [fmtBytesGo_step _ _ _ (fun hcon => h4 ((cast_div_pow_lt n 4).1 hcon)),
              div_pow_step]
            simp only [fmtBytesGo]
            simp only [specFmtBytes, specUnitIndex, h0, h1, h2, h3, h4,
              if_false, specUnits]
            rw [if_neg (by decide : ¬ (5 : ℕ) = 0), String.append_assoc]
            rfl

/-- C4 witness: the amended statement at the concrete in-range input 1536. -/
theorem fmt_bytes_matches_reference_witness :
    (1536 : ℕ) < 2 ^ 53 ∧ _fmt_bytes ((1536 : ℕ) : ℤ) = specFmtBytes 1536 :=
  ⟨by norm_num, (fmt_bytes_matches_reference 1536 (by norm_num)).1⟩

